import Mathlib

/-!
Verification of the fogEdge irrigation control loop (src/iot.cpp).

The C++ source is shallowly embedded here:
* C++ `int` / `unsigned long` values become `ℤ` / `ℕ`; the program never
  overflows the ranges involved, so no wraparound modelling is needed.
* C++ `float` arithmetic in `readTemperature` is modelled exactly over `ℚ`
  (the spec treats the conversion as the mathematical linear formula).
* Hardware and serial effects (`pinMode`, `digitalWrite`, `analogRead`,
  `Serial.print`/`println`, `delay`) become explicit state passing over an
  `IoTState` record that also accumulates an event trace, so ordering
  claims about `setup`/`loop` can be stated as trace equalities.
-/

namespace FogEdge

/-! ### Configuration constants (src/iot.cpp lines 4-20) -/

/-- Arduino analog pin `A0` (Uno numbering); `const int SOIL_MOISTURE_PIN = A0`. -/
def SOIL_MOISTURE_PIN : ℤ := 14

/-- Arduino analog pin `A1`; `const int TEMPERATURE_PIN = A1`. -/
def TEMPERATURE_PIN : ℤ := 15

/-- Arduino analog pin `A2`; `const int GAS_SENSOR_PIN = A2`. -/
def GAS_SENSOR_PIN : ℤ := 16

/-- `const int WATER_PUMP_PIN = 7`. -/
def WATER_PUMP_PIN : ℤ := 7

/-- `const int MOISTURE_THRESHOLD = 300`. -/
def MOISTURE_THRESHOLD : ℤ := 300

/-- `const int GAS_THRESHOLD = 400`. -/
def GAS_THRESHOLD : ℤ := 400

/-- `const float TEMP_THRESHOLD = 30.0`. -/
def TEMP_THRESHOLD : ℚ := 30

/-- `const float VOLTAGE_REF = 5.0`. -/
def VOLTAGE_REF : ℚ := 5

/-- `const int ADC_RESOLUTION = 1023`. -/
def ADC_RESOLUTION : ℤ := 1023

/-- `const unsigned long SAMPLING_INTERVAL = 5000`. -/
def SAMPLING_INTERVAL : ℕ := 5000

/-! ### Data model (src/iot.cpp lines 22-28) -/

/-- `struct SensorData` from src/iot.cpp. -/
structure SensorData where
  soilMoisture : ℤ
  temperature : ℚ
  gasReading : ℤ
  irrigationStatus : Bool
deriving Repr, DecidableEq

/-! ### Pure functions -/

/-- `bool shouldIrrigate(int moisture, float temp, int gas)`
(src/iot.cpp lines 78-89), embedded literally. -/
def shouldIrrigate (moisture : ℤ) (temp : ℚ) (gas : ℤ) : Bool :=
  let lowMoisture := decide (moisture < MOISTURE_THRESHOLD)
  let highTemperature := decide (temp > TEMP_THRESHOLD)
  let highGasStress := decide (gas > GAS_THRESHOLD)
  lowMoisture || (highTemperature && highGasStress)

/-- The pure conversion inside `readTemperature` (src/iot.cpp lines 59-63):
`voltage = code * (VOLTAGE_REF / ADC_RESOLUTION); temperatureC = (voltage - 0.5) * 100.0`.
Taken as a function of an arbitrary rational code so that the spec's
test point `code = 102.3` is expressible. -/
def tempFromCode (code : ℚ) : ℚ :=
  let voltage := code * (VOLTAGE_REF / (ADC_RESOLUTION : ℚ))
  (voltage - 0.5) * 100.0

/-- `float readTemperature()` (src/iot.cpp lines 56-66) as a function of the
raw ADC reading it obtains from `analogRead(TEMPERATURE_PIN)` (an `int`). -/
def readTemperature (tempReading : ℤ) : ℚ :=
  tempFromCode (tempReading : ℚ)

/-! ### Hardware / serial effects

`pinMode`, `digitalWrite`, `analogRead`, `Serial.begin/print/println` and
`delay` are modelled as transformers of an explicit machine state that also
accumulates the trace of hardware events, so that ordering claims about
`setup` and `loop` become trace equalities. -/

/-- Digital level of an output line (`LOW` / `HIGH`). -/
inductive Level where
  | LOW
  | HIGH
deriving Repr, DecidableEq

/-- Direction of a pin as configured by `pinMode` (`INPUT` / `OUTPUT`). -/
inductive Mode where
  | INPUT
  | OUTPUT
deriving Repr, DecidableEq

/-- One hardware / serial effect performed by the program. -/
inductive Event where
  | beginE (baud : ℕ)
  | pinModeE (pin : ℤ) (m : Mode)
  | digitalWriteE (pin : ℤ) (v : Level)
  | analogReadE (pin : ℤ) (value : ℤ)
  | printE (chunk : String)
  | delayE (ms : ℕ)
deriving Repr, DecidableEq

/-- Machine state: pin directions, output-line levels, elapsed time in
milliseconds, and the accumulated event trace. -/
structure IoTState where
  modes : ℤ → Mode
  pins : ℤ → Level
  time : ℕ
  events : List Event

/-- Power-on state: all pins default to `INPUT`/`LOW`, nothing emitted. -/
def initSt : IoTState :=
  { modes := fun _ => Mode.INPUT, pins := fun _ => Level.LOW,
    time := 0, events := [] }

/-- `pinMode(pin, mode)`. -/
def pinMode (p : ℤ) (m : Mode) (s : IoTState) : IoTState :=
  { s with modes := fun q => if q = p then m else s.modes q,
           events := s.events ++ [Event.pinModeE p m] }

/-- `digitalWrite(pin, level)`. -/
def digitalWrite (p : ℤ) (v : Level) (s : IoTState) : IoTState :=
  { s with pins := fun q => if q = p then v else s.pins q,
           events := s.events ++ [Event.digitalWriteE p v] }

/-- `analogRead(pin)` returning the value `v` supplied by the environment;
the state records which pin was sampled and what it returned. -/
def analogReadAt (p v : ℤ) (s : IoTState) : IoTState :=
  { s with events := s.events ++ [Event.analogReadE p v] }

/-- `Serial.begin(baud)`. -/
def serialBegin (baud : ℕ) (s : IoTState) : IoTState :=
  { s with events := s.events ++ [Event.beginE baud] }

/-- `Serial.print(chunk)`. -/
def serialPrint (chunk : String) (s : IoTState) : IoTState :=
  { s with events := s.events ++ [Event.printE chunk] }

/-- `Serial.println(chunk)`: print the chunk followed by a line ending. -/
def serialPrintln (chunk : String) (s : IoTState) : IoTState :=
  serialPrint (chunk ++ "\n") s

/-- `delay(ms)`: block for `ms` milliseconds. -/
def delay (ms : ℕ) (s : IoTState) : IoTState :=
  { s with time := s.time + ms, events := s.events ++ [Event.delayE ms] }

/-- The chunk a `printE` event contributed to the serial stream. -/
def printedChunk : Event → Option String
  | Event.printE c => some c
  | _ => none

/-- The chunks printed so far, in order. -/
def printed (s : IoTState) : List String :=
  s.events.filterMap printedChunk

/-- Concatenation of a chunk list into the byte stream of the serial port. -/
def concatChunks : List String → String
  | [] => ""
  | c :: cs => c ++ concatChunks cs

/-- Everything written to the serial port so far, as one string. -/
def serialOut (s : IoTState) : String :=
  concatChunks (printed s)

/-- Arduino's default rendering of a `float` on `Serial.print`: sign,
integer part, and two rounded decimal digits. -/
def fmt2 (q : ℚ) : String :=
  let sgn := if q < 0 then "-" else ""
  let a : ℚ := |q| + 1 / 200
  let ip : ℕ := a.floor.toNat
  let d2 : ℕ := ((a - (ip : ℚ)) * 100).floor.toNat
  sgn ++ toString ip ++ "." ++ (if d2 < 10 then "0" else "") ++ toString d2

/-! ### Embedded program (src/iot.cpp lines 38-54 and 91-139) -/

/-- `void controlIrrigation(bool irrigate)` (src/iot.cpp lines 91-99). -/
def controlIrrigation (irrigate : Bool) (s : IoTState) : IoTState :=
  if irrigate then
    serialPrintln "IRRIGATION ACTIVATED"
      (digitalWrite WATER_PUMP_PIN Level.HIGH s)
  else
    serialPrintln "No irrigation required"
      (digitalWrite WATER_PUMP_PIN Level.LOW s)

/-- `void logSensorData(const SensorData& data)` (src/iot.cpp lines 101-112),
with each `Serial.print` call in source order.  The `Â°C` marker reproduces
the degree-Celsius bytes of the source literal. -/
def logSensorData (data : SensorData) (s : IoTState) : IoTState :=
  let s := serialPrintln "\n--- Sensor Data Log ---" s
  let s := serialPrint "Soil Moisture: " s
  let s := serialPrint (toString data.soilMoisture) s
  let s := serialPrint " | Temperature: " s
  let s := serialPrint (fmt2 data.temperature) s
  let s := serialPrint "Â°C | Gas Reading: " s
  let s := serialPrint (toString data.gasReading) s
  let s := serialPrint " | Irrigation Status: " s
  serialPrintln (if data.irrigationStatus then "REQUIRED" else "NOT NEEDED") s

/-- `void setup()` (src/iot.cpp lines 38-54). -/
def setup (s : IoTState) : IoTState :=
  let s := serialBegin 9600 s
  let s := pinMode SOIL_MOISTURE_PIN Mode.INPUT s
  let s := pinMode TEMPERATURE_PIN Mode.INPUT s
  let s := pinMode GAS_SENSOR_PIN Mode.INPUT s
  let s := pinMode WATER_PUMP_PIN Mode.OUTPUT s
  let s := digitalWrite WATER_PUMP_PIN Level.LOW s
  let s := serialPrintln "Edge Computing Irrigation Monitoring System" s
  serialPrintln "-------------------------------------------" s

/-- `void loop()` (src/iot.cpp lines 114-139), parameterised by the three
raw readings the environment supplies to this iteration's `analogRead`s. -/
def loop (soilRaw tempRaw gasRaw : ℤ) (s : IoTState) : IoTState :=
  let s := analogReadAt SOIL_MOISTURE_PIN soilRaw s
  let soilMoisture := soilRaw
  let s := analogReadAt TEMPERATURE_PIN tempRaw s
  let temperature := readTemperature tempRaw
  let s := analogReadAt GAS_SENSOR_PIN gasRaw s
  let gasReading := gasRaw
  let irrigationNeeded := shouldIrrigate soilMoisture temperature gasReading
  let currentData : SensorData :=
    { soilMoisture := soilMoisture, temperature := temperature,
      gasReading := gasReading, irrigationStatus := irrigationNeeded }
  let s := logSensorData currentData s
  let s := controlIrrigation irrigationNeeded s
  delay SAMPLING_INTERVAL s

/-- The Arduino runtime: `setup()` once at power-on, then `loop()` forever;
`run env n` is the state after `n` loop iterations, where `env i` supplies
the three raw analog readings of iteration `i`. -/
def run (env : ℕ → ℤ × ℤ × ℤ) : ℕ → IoTState
  | 0 => setup initSt
  | n + 1 => loop (env n).1 (env n).2.1 (env n).2.2 (run env n)

/-! ### Trace descriptions used in the ordering theorems -/

/-- The chunks `logSensorData` prints, in source order. -/
def logChunks (data : SensorData) : List String :=
  ["\n--- Sensor Data Log ---\n",
   "Soil Moisture: ", toString data.soilMoisture,
   " | Temperature: ", fmt2 data.temperature,
   "Â°C | Gas Reading: ", toString data.gasReading,
   " | Irrigation Status: ",
   (if data.irrigationStatus then "REQUIRED" else "NOT NEEDED") ++ "\n"]

/-- The snapshot `loop` builds from the three raw readings. -/
def loopSnapshot (soilRaw tempRaw gasRaw : ℤ) : SensorData :=
  { soilMoisture := soilRaw, temperature := readTemperature tempRaw,
    gasReading := gasRaw,
    irrigationStatus :=
      shouldIrrigate soilRaw (readTemperature tempRaw) gasRaw }

/-- The events of one `loop` iteration on raw readings
`(soilRaw, tempRaw, gasRaw)`: the three sensor reads in order, the log
block, the actuator write with its status line, then the sampling delay. -/
def loopEvents (soilRaw tempRaw gasRaw : ℤ) : List Event :=
  [Event.analogReadE SOIL_MOISTURE_PIN soilRaw,
   Event.analogReadE TEMPERATURE_PIN tempRaw,
   Event.analogReadE GAS_SENSOR_PIN gasRaw]
  ++ (logChunks (loopSnapshot soilRaw tempRaw gasRaw)).map Event.printE
  ++ [Event.digitalWriteE WATER_PUMP_PIN
        (if (loopSnapshot soilRaw tempRaw gasRaw).irrigationStatus
         then Level.HIGH else Level.LOW),
      Event.printE
        ((if (loopSnapshot soilRaw tempRaw gasRaw).irrigationStatus
          then "IRRIGATION ACTIVATED" else "No irrigation required") ++ "\n"),
      Event.delayE SAMPLING_INTERVAL]

/-- The events of `setup`: serial initialization, the four pin
configurations, the initial pump-off write, and the two banner lines. -/
def setupEvents : List Event :=
  [Event.beginE 9600,
   Event.pinModeE SOIL_MOISTURE_PIN Mode.INPUT,
   Event.pinModeE TEMPERATURE_PIN Mode.INPUT,
   Event.pinModeE GAS_SENSOR_PIN Mode.INPUT,
   Event.pinModeE WATER_PUMP_PIN Mode.OUTPUT,
   Event.digitalWriteE WATER_PUMP_PIN Level.LOW,
   Event.printE "Edge Computing Irrigation Monitoring System\n",
   Event.printE "-------------------------------------------\n"]

end FogEdge

namespace FogEdge

/-! ### Helper lemmas -/

lemma concatChunks_append (a b : List String) :
    concatChunks (a ++ b) = concatChunks a ++ concatChunks b := by
  induction a with
  | nil => simp [concatChunks]
  | cons c cs ih => simp [concatChunks, ih, String.append_assoc]

lemma printed_append_events (s : IoTState) (es : List Event) :
    printed { s with events := s.events ++ es } =
      printed s ++ es.filterMap printedChunk := by
  simp [printed, List.filterMap_append]

/-! ### Theorems about the irrigation policy and temperature conversion -/

/-- C1: `shouldIrrigate moisture temp gas` is true iff
`moisture < MOISTURE_THRESHOLD` or both `temp > TEMP_THRESHOLD` and
`gas > GAS_THRESHOLD`; in particular it is true for every
`moisture < MOISTURE_THRESHOLD` regardless of the other inputs, and for
`moisture ≥ MOISTURE_THRESHOLD` it is true iff both secondary
conditions hold. -/
theorem shouldIrrigate_iff_thresholds (moisture : ℤ) (temp : ℚ) (gas : ℤ) :
    (shouldIrrigate moisture temp gas = true ↔
      (moisture < MOISTURE_THRESHOLD ∨
        (TEMP_THRESHOLD < temp ∧ GAS_THRESHOLD < gas)))
    ∧ (moisture < MOISTURE_THRESHOLD → shouldIrrigate moisture temp gas = true)
    ∧ (MOISTURE_THRESHOLD ≤ moisture →
        (shouldIrrigate moisture temp gas = true ↔
          (TEMP_THRESHOLD < temp ∧ GAS_THRESHOLD < gas))) := by
  refine ⟨?_, ?_, ?_⟩
  · simp [shouldIrrigate]
  · intro h
    simp [shouldIrrigate, h]
  · intro h
    have : ¬ moisture < MOISTURE_THRESHOLD := not_lt.mpr h
    simp [shouldIrrigate, this]

/-- Witness for C1: the end-to-end spec scenarios, discharged through
`shouldIrrigate_iff_thresholds` at concrete inputs. -/
theorem shouldIrrigate_iff_thresholds_witness :
    shouldIrrigate 250 20 100 = true ∧ shouldIrrigate 500 35 450 = true := by
  refine ⟨(shouldIrrigate_iff_thresholds 250 20 100).2.1
    (by norm_num [MOISTURE_THRESHOLD]), ?_⟩
  exact ((shouldIrrigate_iff_thresholds 500 35 450).2.2
      (by norm_num [MOISTURE_THRESHOLD])).mpr
    (by constructor <;> norm_num [TEMP_THRESHOLD, GAS_THRESHOLD])

/-- C2: all three comparisons in `shouldIrrigate` are strict.  At the exact
triple boundary `(300, 30.0, 400)` the result is false, and for each
comparison the threshold value itself does not trigger while a value one
step past it does. -/
theorem shouldIrrigate_strict_boundaries :
    shouldIrrigate MOISTURE_THRESHOLD TEMP_THRESHOLD GAS_THRESHOLD = false
    ∧ (shouldIrrigate 300 0 0 = false ∧ shouldIrrigate 299 0 0 = true)
    ∧ (shouldIrrigate 300 30 500 = false ∧ shouldIrrigate 300 (61/2) 500 = true)
    ∧ (shouldIrrigate 300 31 400 = false ∧ shouldIrrigate 300 31 401 = true) := by
  refine ⟨?_, ⟨?_, ?_⟩, ⟨?_, ?_⟩, ⟨?_, ?_⟩⟩ <;>
    simp [shouldIrrigate, MOISTURE_THRESHOLD, TEMP_THRESHOLD, GAS_THRESHOLD] <;>
    norm_num

/-- C3: the conversion in `readTemperature` is exactly
`(code * (VOLTAGE_REF / ADC_RESOLUTION) - 0.5) * 100.0` with
`VOLTAGE_REF = 5` and `ADC_RESOLUTION = 1023`; at code 0 it yields `-50`
and at code `ADC_RESOLUTION = 1023` it yields `450` (exactly, in exact
arithmetic, hence "approximately 450.0" for the float program). -/
theorem readTemperature_linear_endpoints :
    (∀ r : ℤ, readTemperature r = ((r : ℚ) * (5 / 1023) - 0.5) * 100)
    ∧ readTemperature 0 = -50
    ∧ readTemperature ADC_RESOLUTION = 450 := by
  refine ⟨fun r => by norm_num [readTemperature, tempFromCode,
      VOLTAGE_REF, ADC_RESOLUTION],
    by norm_num [readTemperature, tempFromCode, VOLTAGE_REF, ADC_RESOLUTION], ?_⟩
  norm_num [readTemperature, tempFromCode, VOLTAGE_REF, ADC_RESOLUTION]

/-- C4 counterexample: at code `102.3` (= 1023/10) the conversion used by
`readTemperature` yields exactly `0`, which is `50` away from the claimed
`-50.0` — not approximately `-50.0` under any reasonable tolerance. -/
theorem tempFromCode_102_3_not_near_minus50 :
    tempFromCode (1023 / 10) = 0 ∧ |tempFromCode (1023 / 10) - (-50)| = 50 := by
  constructor <;>
    norm_num [tempFromCode, VOLTAGE_REF, ADC_RESOLUTION]

/-- C4 amended: at code `102.3` the voltage is exactly the `0.5` V offset,
so the conversion used by `readTemperature` yields exactly `0.0`
(it is code `0` that yields `-50.0`). -/
theorem tempFromCode_102_3_eq_zero :
    tempFromCode (1023 / 10) = 0 := by
  norm_num [tempFromCode, VOLTAGE_REF, ADC_RESOLUTION]

/-- C10: `shouldIrrigate` is antitone in its moisture argument: lowering
the moisture reading never cancels a positive irrigation decision. -/
theorem shouldIrrigate_antitone_moisture
    (temp : ℚ) (gas : ℤ) (m m' : ℤ) (hle : m' ≤ m)
    (h : shouldIrrigate m temp gas = true) :
    shouldIrrigate m' temp gas = true := by
  simp only [shouldIrrigate, Bool.or_eq_true, Bool.and_eq_true,
    decide_eq_true_eq] at h ⊢
  rcases h with hm | hsec
  · exact Or.inl (lt_of_le_of_lt hle hm)
  · exact Or.inr hsec

/-- Witness for C10: lowering moisture from 250 to 100 preserves the
irrigation decision. -/
theorem shouldIrrigate_antitone_moisture_witness :
    shouldIrrigate 100 20 100 = true :=
  shouldIrrigate_antitone_moisture 20 100 250 100 (by norm_num) (by decide)

/-! ### Theorems about the actuator controller -/

/-- C5: `controlIrrigation true` drives the pump line `HIGH` and appends
the fixed activation line; `controlIrrigation false` drives it `LOW` and
appends the fixed no-irrigation line.  These are the only effects: every
other pin, all pin modes and the clock are untouched, and the event trace
grows by exactly the one write and the one message on every call. -/
theorem controlIrrigation_effects (s : IoTState) :
    (controlIrrigation true s).pins WATER_PUMP_PIN = Level.HIGH
    ∧ serialOut (controlIrrigation true s) =
        serialOut s ++ "IRRIGATION ACTIVATED\n"
    ∧ (controlIrrigation false s).pins WATER_PUMP_PIN = Level.LOW
    ∧ serialOut (controlIrrigation false s) =
        serialOut s ++ "No irrigation required\n"
    ∧ (∀ (b : Bool) (p : ℤ), p ≠ WATER_PUMP_PIN →
        (controlIrrigation b s).pins p = s.pins p)
    ∧ (∀ b : Bool, (controlIrrigation b s).modes = s.modes
        ∧ (controlIrrigation b s).time = s.time)
    ∧ (∀ b : Bool, (controlIrrigation b s).events = s.events ++
        [Event.digitalWriteE WATER_PUMP_PIN
           (if b then Level.HIGH else Level.LOW),
         Event.printE
           ((if b then "IRRIGATION ACTIVATED" else "No irrigation required")
             ++ "\n")]) := by
  refine ⟨by simp [controlIrrigation, serialPrintln, serialPrint, digitalWrite],
    ?_, by simp [controlIrrigation, serialPrintln, serialPrint, digitalWrite],
    ?_, ?_, ?_, ?_⟩
  · simp [controlIrrigation, serialPrintln, serialPrint, digitalWrite,
      serialOut, printed, List.filterMap_append, printedChunk,
      concatChunks_append, concatChunks]
  · simp [controlIrrigation, serialPrintln, serialPrint, digitalWrite,
      serialOut, printed, List.filterMap_append, printedChunk,
      concatChunks_append, concatChunks]
  · intro b p hp
    cases b <;>
      simp [controlIrrigation, serialPrintln, serialPrint, digitalWrite, hp]
  · intro b
    cases b <;>
      simp [controlIrrigation, serialPrintln, serialPrint, digitalWrite]
  · intro b
    cases b <;>
      simp [controlIrrigation, serialPrintln, serialPrint, digitalWrite]

/-- Witness for C5: on the power-on state, activating the pump drives pin 7
`HIGH` while pin 0 keeps its prior level. -/
theorem controlIrrigation_effects_witness :
    (controlIrrigation true initSt).pins WATER_PUMP_PIN = Level.HIGH
    ∧ (controlIrrigation true initSt).pins 0 = initSt.pins 0 :=
  ⟨(controlIrrigation_effects initSt).1,
   (controlIrrigation_effects initSt).2.2.2.2.1 true 0 (by decide)⟩

/-- C8: `controlIrrigation` is idempotent: a second call with the same
boolean leaves every pin level and pin mode exactly as after the first
call, and both calls emit the identical status line — logging is
unconditional, not edge-triggered on a change. -/
theorem controlIrrigation_idempotent (b : Bool) (s : IoTState) :
    (controlIrrigation b (controlIrrigation b s)).pins =
      (controlIrrigation b s).pins
    ∧ (controlIrrigation b (controlIrrigation b s)).modes =
        (controlIrrigation b s).modes
    ∧ serialOut (controlIrrigation b s) = serialOut s ++
        ((if b then "IRRIGATION ACTIVATED" else "No irrigation required")
          ++ "\n")
    ∧ serialOut (controlIrrigation b (controlIrrigation b s)) =
        serialOut (controlIrrigation b s) ++
          ((if b then "IRRIGATION ACTIVATED" else "No irrigation required")
            ++ "\n") := by
  refine ⟨?_, ?_, ?_, ?_⟩
  · funext q
    cases b <;> by_cases hq : q = WATER_PUMP_PIN <;>
      simp [controlIrrigation, serialPrintln, serialPrint, digitalWrite, hq]
  · cases b <;>
      simp [controlIrrigation, serialPrintln, serialPrint, digitalWrite]
  · cases b <;>
      simp [controlIrrigation, serialPrintln, serialPrint, digitalWrite,
        serialOut, printed, List.filterMap_append, printedChunk,
        concatChunks_append, concatChunks]
  · cases b <;>
      simp [controlIrrigation, serialPrintln, serialPrint, digitalWrite,
        serialOut, printed, List.filterMap_append, printedChunk,
        concatChunks_append, concatChunks, String.append_assoc]

/-! ### Theorems about the cycle logger and the loop body -/

/-- C6: `logSensorData` appends to the serial stream exactly a header line
followed by one line carrying, in this exact field order, the soil
moisture, the temperature with its degree-Celsius marker, the gas reading,
and the irrigation status rendered as `REQUIRED` when `irrigationStatus`
is true and `NOT NEEDED` when it is false. -/
theorem logSensorData_format (data : SensorData) (s : IoTState) :
    printed (logSensorData data s) = printed s ++ logChunks data
    ∧ serialOut (logSensorData data s) = serialOut s
        ++ ("\n" ++ ("--- Sensor Data Log ---" ++ "\n"))
        ++ ("Soil Moisture: " ++ (toString data.soilMoisture
            ++ (" | Temperature: " ++ (fmt2 data.temperature
            ++ ("Â°C | Gas Reading: " ++ (toString data.gasReading
            ++ (" | Irrigation Status: "
            ++ ((if data.irrigationStatus then "REQUIRED" else "NOT NEEDED")
            ++ "\n")))))))) := by
  constructor
  · simp [logSensorData, serialPrintln, serialPrint, printed,
      List.filterMap_append, printedChunk, logChunks, List.append_assoc]
  · simp [logSensorData, serialPrintln, serialPrint, serialOut, printed,
      List.filterMap_append, printedChunk, concatChunks_append, concatChunks,
      List.append_assoc, String.append_assoc]

/-- C9: the snapshot `loop` builds carries as its `irrigationStatus` field
exactly `shouldIrrigate` of its own three readings, and one `loop`
iteration logs that very snapshot and then hands that same boolean to
`controlIrrigation`. -/
theorem loop_snapshot_consistent (soilRaw tempRaw gasRaw : ℤ) (s : IoTState) :
    (loopSnapshot soilRaw tempRaw gasRaw).irrigationStatus =
      shouldIrrigate (loopSnapshot soilRaw tempRaw gasRaw).soilMoisture
        (loopSnapshot soilRaw tempRaw gasRaw).temperature
        (loopSnapshot soilRaw tempRaw gasRaw).gasReading
    ∧ loop soilRaw tempRaw gasRaw s =
        delay SAMPLING_INTERVAL
          (controlIrrigation
            (loopSnapshot soilRaw tempRaw gasRaw).irrigationStatus
            (logSensorData (loopSnapshot soilRaw tempRaw gasRaw)
              (analogReadAt GAS_SENSOR_PIN gasRaw
                (analogReadAt TEMPERATURE_PIN tempRaw
                  (analogReadAt SOIL_MOISTURE_PIN soilRaw s))))) :=
  ⟨rfl, rfl⟩

/-! ### Theorems about the whole program -/

lemma setup_events_eq (s : IoTState) :
    (setup s).events = s.events ++ setupEvents := by
  simp [setup, serialBegin, pinMode, digitalWrite, serialPrintln, serialPrint,
    setupEvents, List.append_assoc]

lemma loop_events_eq (soilRaw tempRaw gasRaw : ℤ) (s : IoTState) :
    (loop soilRaw tempRaw gasRaw s).events =
      s.events ++ loopEvents soilRaw tempRaw gasRaw := by
  cases h : shouldIrrigate soilRaw (readTemperature tempRaw) gasRaw <;>
    simp [loop, analogReadAt, logSensorData, controlIrrigation, serialPrintln,
      serialPrint, digitalWrite, delay, loopEvents, logChunks, loopSnapshot, h,
      List.append_assoc]

lemma loop_time_eq (soilRaw tempRaw gasRaw : ℤ) (s : IoTState) :
    (loop soilRaw tempRaw gasRaw s).time = s.time + SAMPLING_INTERVAL := by
  cases h : shouldIrrigate soilRaw (readTemperature tempRaw) gasRaw <;>
    simp [loop, analogReadAt, logSensorData, controlIrrigation, serialPrintln,
      serialPrint, digitalWrite, delay, h]

/-- C7: the program runs `setup` exactly once before any iteration — it
configures the three sensor pins as inputs and the pump pin as an output,
drives the pump `LOW`, and prints the startup banner — and then every
iteration contributes, in fixed order, the three sensor reads, the log
block, the actuator write with its status line, and the blocking
`SAMPLING_INTERVAL` delay, so after `n` iterations `SAMPLING_INTERVAL * n`
milliseconds have been spent waiting. -/
theorem setup_once_loop_order (env : ℕ → ℤ × ℤ × ℤ) (n : ℕ) :
    (run env n).events =
      setupEvents ++
        ((List.range n).map
          (fun i => loopEvents (env i).1 (env i).2.1 (env i).2.2)).flatten
    ∧ (setup initSt).modes SOIL_MOISTURE_PIN = Mode.INPUT
    ∧ (setup initSt).modes TEMPERATURE_PIN = Mode.INPUT
    ∧ (setup initSt).modes GAS_SENSOR_PIN = Mode.INPUT
    ∧ (setup initSt).modes WATER_PUMP_PIN = Mode.OUTPUT
    ∧ (setup initSt).pins WATER_PUMP_PIN = Level.LOW
    ∧ serialOut (setup initSt) =
        "Edge Computing Irrigation Monitoring System\n" ++
          "-------------------------------------------\n"
    ∧ (run env n).time = SAMPLING_INTERVAL * n := by
  refine ⟨?_, ?_, ?_, ?_, ?_, ?_, ?_, ?_⟩
  · induction n with
    | zero =>
      have h := setup_events_eq initSt
      simpa [run, initSt] using h
    | succ n ih =>
      rw [run, loop_events_eq, ih, List.range_succ]
      simp [List.append_assoc]
  · simp [setup, serialBegin, pinMode, digitalWrite, serialPrintln,
      serialPrint, initSt, SOIL_MOISTURE_PIN, TEMPERATURE_PIN,
      GAS_SENSOR_PIN, WATER_PUMP_PIN]
  · simp [setup, serialBegin, pinMode, digitalWrite, serialPrintln,
      serialPrint, initSt, SOIL_MOISTURE_PIN, TEMPERATURE_PIN,
      GAS_SENSOR_PIN, WATER_PUMP_PIN]
  · simp [setup, serialBegin, pinMode, digitalWrite, serialPrintln,
      serialPrint, initSt, SOIL_MOISTURE_PIN, TEMPERATURE_PIN,
      GAS_SENSOR_PIN, WATER_PUMP_PIN]
  · simp [setup, serialBegin, pinMode, digitalWrite, serialPrintln,
      serialPrint, initSt, SOIL_MOISTURE_PIN, TEMPERATURE_PIN,
      GAS_SENSOR_PIN, WATER_PUMP_PIN]
  · simp [setup, serialBegin, pinMode, digitalWrite, serialPrintln,
      serialPrint, initSt, WATER_PUMP_PIN]
  · simp [setup, serialBegin, pinMode, digitalWrite, serialPrintln,
      serialPrint, initSt, serialOut, printed, printedChunk,
      List.filterMap_append, concatChunks]
  · induction n with
    | zero => simp [run, setup, serialBegin, pinMode, digitalWrite,
        serialPrintln, serialPrint, initSt]
    | succ n ih =>
      rw [run, loop_time_eq, ih]
      ring

end FogEdge
